import Mathlib

/-! Verification development for the IMBIE time-series core
(`imbie2/model/series/rate_series.py`, `imbie2/model/series/mass_series.py`).

Numbers are modelled as exact rationals (`ℚ`).  The external `numpy.sqrt`
routine is modelled as an arbitrary function parameter `sq : ℚ → ℚ` threaded
through the operations that apply it, so every statement about the error
formula `sqrt((ea² + eb²)/2)` is proved for every square-root implementation.
Python `None` values become `Option`, a raised exception becomes
`Except.error`, and a `return None` becomes `Except.ok none`.
-/

/-- Modelled from the spec: the basin-scheme enumeration `BasinGroup` lives in
`imbie2/const/basins.py`, which is not under `src/`.  The spec names two
source schemes (scheme-A, scheme-B) plus the unified "sheets" scheme. -/
inductive BasinGroup where
  | rignot : BasinGroup
  | zwally : BasinGroup
  | sheets : BasinGroup
deriving DecidableEq, Repr

/-- Rate-over-interval series (`MassRateDataSeries`): identity record from the
`DataSeries` base plus parallel arrays `t0`, `t1`, `dmdt`, `errs`, `a`.
The area array is optional because `derive_rates` constructs a series with
`area = None` when its input has no area array. -/
structure MassRateDataSeries where
  user : Option String
  user_group : Option String
  data_group : Option String
  basin_group : BasinGroup
  basin_id : String
  basin_area : Option ℚ
  t0 : List ℚ
  t1 : List ℚ
  dmdt : List ℚ
  errs : List ℚ
  a : Option (List ℚ)
  computed : Bool
  merged : Bool
  aggregated : Bool
deriving DecidableEq, Repr

/-- Regularized point-sampled rate series (`WorkingMassRateDataSeries`). -/
structure WorkingMassRateDataSeries where
  user : Option String
  user_group : Option String
  data_group : Option String
  basin_group : BasinGroup
  basin_id : String
  basin_area : Option ℚ
  t : List ℚ
  a : Option (List ℚ)
  dmdt : List ℚ
  errs : List ℚ
  computed : Bool
  merged : Bool
  aggregated : Bool
deriving DecidableEq, Repr

/-- Cumulative mass series (`MassChangeDataSeries`): arrays `t`, `dM`, `a`,
`dM_err`.  Its `__init__` passes only `computed` and `merged` to the base
class, so `aggregated` always takes the base-class default `False`. -/
structure MassChangeDataSeries where
  user : Option String
  user_group : Option String
  data_group : Option String
  basin_group : BasinGroup
  basin_id : String
  basin_area : Option ℚ
  t : List ℚ
  dM : List ℚ
  a : Option (List ℚ)
  dM_err : List ℚ
  computed : Bool
  merged : Bool
  aggregated : Bool
deriving DecidableEq, Repr

/-- Numpy fancy indexing `arr[idx]`: select the elements of `l` at the
positions listed in `is` (indices produced by `match` are in range; out-of-
range positions default to `0`, which no proved statement relies on). -/
def sel (l : List ℚ) (idx : List ℕ) : List ℚ :=
  idx.map (fun i => l.getD i 0)

/-- Numpy boolean-mask indexing `arr[ok]`: keep the elements of `l` whose
mask entry is `true`. -/
def maskFilter (l : List ℚ) (ok : List Bool) : List ℚ :=
  (l.zip ok).filterMap (fun p => if p.2 then some p.1 else none)

/-- Numpy `np.cumsum`: running sums. -/
def cumsum (l : List ℚ) : List ℚ :=
  (l.scanl (· + ·) 0).tail

/-- Numpy `np.diff`: first differences of consecutive elements. -/
def npdiff (l : List ℚ) : List ℚ :=
  List.zipWith (fun x y => y - x) l.dropLast l.tail

/-- Modelled from the spec: `match` (from `imbie2/util/functions.py`, not under
`src/`) aligns two ascending time arrays, §4.1: it returns index arrays
`(ia, ib)` with `ta[ia] = tb[ib]` elementwise, is deterministic, first
occurrence wins on duplicates, returns empty arrays on zero overlap, and
`match(t, t)` is the identity permutation.  This is the standard merge-join
over ascending arrays; the fuel argument (total remaining length) makes the
recursion structural, and is always sufficient. -/
def matchGo : ℕ → List ℚ → List ℚ → ℕ → ℕ → List ℕ × List ℕ
  | 0, _, _, _, _ => ([], [])
  | fuel + 1, x :: xs, y :: ys, i, j =>
    if x = y then
      let p := matchGo fuel xs ys (i + 1) (j + 1)
      (i :: p.1, j :: p.2)
    else if x < y then
      matchGo fuel xs (y :: ys) (i + 1) j
    else
      matchGo fuel (x :: xs) ys i (j + 1)
  | _ + 1, _, _, _, _ => ([], [])

/-- Modelled from the spec: entry point of the §4.1 matching component. -/
def matchTimes (ta tb : List ℚ) : List ℕ × List ℕ :=
  matchGo (ta.length + tb.length) ta tb 0 0

/-- Modelled from the spec: within one chunk of the §4.2 combination engine,
the value at an output time point is obtained by sampling the chunk —
a one-point chunk contributes only at its own time, an interval chunk holds
its value over the interval (linear interpolation between its points). -/
def interpChunk : List ℚ → List ℚ → ℚ → Option ℚ
  | [t], [v], g => if g = t then some v else none
  | ta :: tb :: ts, va :: vb :: vs, g =>
    if g < ta then none
    else if g ≤ tb then some (va + (vb - va) * (g - ta) / (tb - ta))
    else interpChunk (tb :: ts) (vb :: vs) g
  | _, _, _ => none

/-- Modelled from the spec: the §4.2 regularized output time base — a monthly
grid (step `1/12` year) spanning the minimum to the maximum time occurring in
any chunk. -/
def wcGrid (timeChunks : List (List ℚ)) : List ℚ :=
  match timeChunks.flatten with
  | [] => []
  | x :: xs =>
    let tmin := xs.foldl min x
    let tmax := xs.foldl max x
    (List.range ((⌊12 * (tmax - tmin)⌋).toNat + 1)).map
      (fun k => tmin + (k : ℚ) / 12)

/-- Modelled from the spec: `weighted_combine` (`imbie2/util/combine.py`, not
under `src/`), the §4.2 combination engine.  Chunk values landing on the same
output time point are pooled: arithmetic mean by default, or — for error
chunks (`error=True`) — root-sum-of-squares divided by the count. -/
def weighted_combine (sq : ℚ → ℚ) (timeChunks valueChunks : List (List ℚ))
    (error : Bool) : List ℚ × List ℚ :=
  let grid := wcGrid timeChunks
  (grid, grid.map (fun g =>
    let cs := (timeChunks.zip valueChunks).filterMap
      (fun p => interpChunk p.1 p.2 g)
    if error then sq (cs.foldl (fun acc v => acc + v * v) 0) / (cs.length : ℚ)
    else cs.foldl (· + ·) 0 / (cs.length : ℚ)))

/-- Concrete square-root stand-in used only to instantiate witnesses and
counterexamples (the statements hold for every `sq`). -/
def sqId : ℚ → ℚ := fun q => q

/-- Modelled from the spec: the `DataSeries` base class
(`imbie2/model/series/data_series.py`, not under `src/`) exposes the series'
error array; for `MassChangeDataSeries` the error array is `dM_err`
(`derive_rates` in `rate_series.py` reads it as `mass_data.errs`). -/
def MassChangeDataSeries.errs (s : MassChangeDataSeries) : List ℚ :=
  s.dM_err

/-- Modelled from the spec: the `DataSeries` base also exposes the series'
value array; for `MassChangeDataSeries` it is `dM`, read as
`mass_data.mass` by `derive_rates` and the reporting code. -/
def MassChangeDataSeries.mass (s : MassChangeDataSeries) : List ℚ :=
  s.dM

/-- Modelled from the spec: the rate array of a rate series under the name
`dMdt` used by `MassChangeDataSeries.accumulate_mass` (`rate_data.dMdt`);
per the §3 data model it is the series' value array `dmdt`. -/
def MassRateDataSeries.dMdt (s : MassRateDataSeries) : List ℚ :=
  s.dmdt

/-- Modelled from the spec: the error array of a rate series under the name
`dMdt_err` used by `MassChangeDataSeries.accumulate_mass`
(`rate_data.dMdt_err`); per the §3 data model it is the error array `errs`. -/
def MassRateDataSeries.dMdt_err (s : MassRateDataSeries) : List ℚ :=
  s.errs

/-- Derived property `t` of `MassRateDataSeries` (rate_series.py lines
75-77): the midpoint `(t0 + t1) / 2` of each interval. -/
def MassRateDataSeries.t (s : MassRateDataSeries) : List ℚ :=
  List.zipWith (fun x y => (x + y) / 2) s.t0 s.t1

/-- Success-path result of `MassRateDataSeries.merge` (rate_series.py lines
117-130), given both inputs' area arrays `la` and `lb`. -/
def mergedMR (sq : ℚ → ℚ) (a b : MassRateDataSeries) (la lb : List ℚ) :
    MassRateDataSeries :=
  let ia := (matchTimes a.t0 b.t0).1
  let ib := (matchTimes a.t0 b.t0).2
  { user := a.user
    user_group := a.user_group
    data_group := a.data_group
    basin_group := BasinGroup.sheets
    basin_id := a.basin_id
    basin_area := a.basin_area
    t0 := sel a.t0 ia
    t1 := sel a.t1 ia
    dmdt := List.zipWith (fun x y => (x + y) / 2) (sel a.dmdt ia) (sel b.dmdt ib)
    errs := List.zipWith (fun x y => sq ((x * x + y * y) / 2))
      (sel a.errs ia) (sel b.errs ib)
    a := some (List.zipWith (fun x y => (x + y) / 2) (sel la ia) (sel lb ib))
    computed := a.computed || b.computed
    merged := true
    aggregated := a.aggregated || b.aggregated }

/-- `MassRateDataSeries.merge` (rate_series.py lines 108-130).  `len(a)` is
`len(a.t0)`.  A `return None` is `.ok none`; indexing an absent area array
(`a.a[ia]` with `a.a = None`) raises `TypeError`, i.e. `.error`. -/
def MassRateDataSeries.merge (sq : ℚ → ℚ) (a b : MassRateDataSeries) :
    Except String (Option MassRateDataSeries) :=
  let ia := (matchTimes a.t0 b.t0).1
  let ib := (matchTimes a.t0 b.t0).2
  if a.t0.length = b.t0.length then
    if ia.length = a.t0.length ∧ ib.length = b.t0.length then
      match a.a, b.a with
      | some la, some lb => .ok (some (mergedMR sq a b la lb))
      | _, _ => .error "TypeError: NoneType object is not subscriptable"
    else .ok none
  else .ok none

/-- Success-path result of `WorkingMassRateDataSeries.merge` (rate_series.py
lines 238-251): note `ar = None` — the area-average line is commented out. -/
def mergedW (sq : ℚ → ℚ) (a b : WorkingMassRateDataSeries) :
    WorkingMassRateDataSeries :=
  let ia := (matchTimes a.t b.t).1
  let ib := (matchTimes a.t b.t).2
  { user := a.user
    user_group := a.user_group
    data_group := a.data_group
    basin_group := BasinGroup.sheets
    basin_id := a.basin_id
    basin_area := a.basin_area
    t := sel a.t ia
    a := none
    dmdt := List.zipWith (fun x y => (x + y) / 2) (sel a.dmdt ia) (sel b.dmdt ib)
    errs := List.zipWith (fun x y => sq ((x * x + y * y) / 2))
      (sel a.errs ia) (sel b.errs ib)
    computed := a.computed || b.computed
    merged := true
    aggregated := a.aggregated || b.aggregated }

/-- `WorkingMassRateDataSeries.merge` (rate_series.py lines 222-251).  Before
any compatibility check, leftover debug code evaluates
`a.user.lower() == "helm"`; when `a.user` is `None` this raises
`AttributeError` (`match` itself, modelled from §4.1, never raises, so the
`except IndexError` branch is unreachable, and the `print` calls are
side-effect-free in the model).  `len(a)` is `len(a.t)`. -/
def WorkingMassRateDataSeries.merge (sq : ℚ → ℚ)
    (a b : WorkingMassRateDataSeries) :
    Except String (Option WorkingMassRateDataSeries) :=
  let ia := (matchTimes a.t b.t).1
  let ib := (matchTimes a.t b.t).2
  match a.user with
  | none => .error "AttributeError: NoneType object has no attribute lower"
  | some _ =>
    if a.t.length = b.t.length then
      if ia.length = a.t.length ∧ ib.length = b.t.length then
        .ok (some (mergedW sq a b))
      else .ok none
    else .ok none

/-- `MassChangeDataSeries.__init__` (mass_series.py lines 20-28).  The stored
arrays pass through `ts2m`; `ts2m` (`imbie2/util/functions.py`) is not under
`src/` and the spec's §3 `MassSeries` data model holds the given parallel
arrays, so — modelled from the spec — `ts2m` is the identity on its
`(time, values)` argument pair.  Only `computed` and `merged` reach the base
class, so `aggregated` is always `false`. -/
def MassChangeDataSeries.init (user user_group data_group : Option String)
    (basin_group : BasinGroup) (basin_id : String) (basin_area : Option ℚ)
    (time : List ℚ) (area : Option (List ℚ)) (mass : List ℚ) (errs : List ℚ)
    (computed : Bool := false) (merged : Bool := false) :
    MassChangeDataSeries :=
  { user := user
    user_group := user_group
    data_group := data_group
    basin_group := basin_group
    basin_id := basin_id
    basin_area := basin_area
    t := time
    dM := mass
    a := area
    dM_err := errs
    computed := computed
    merged := merged
    aggregated := false }

/-- `MassChangeDataSeries.merge` (mass_series.py lines 66-87).  `len(a)` is
`len(a.t)`; after the length/coverage checks it also returns `None` when the
match is empty; the success path indexes both area arrays (raising
`TypeError` when one is `None`) and builds the result through `__init__`. -/
def MassChangeDataSeries.merge (sq : ℚ → ℚ) (a b : MassChangeDataSeries) :
    Except String (Option MassChangeDataSeries) :=
  let ia := (matchTimes a.t b.t).1
  let ib := (matchTimes a.t b.t).2
  if a.t.length = b.t.length then
    if ia.length = a.t.length ∧ ib.length = b.t.length then
      if ia.length = 0 then .ok none
      else
        match a.a, b.a with
        | some la, some lb =>
          .ok (some (MassChangeDataSeries.init a.user a.user_group
            a.data_group BasinGroup.sheets a.basin_id a.basin_area
            (sel a.t ia)
            (some (List.zipWith (fun x y => (x + y) / 2) (sel la ia)
              (sel lb ib)))
            (List.zipWith (fun x y => (x + y) / 2) (sel a.dM ia)
              (sel b.dM ib))
            (List.zipWith (fun x y => sq ((x * x + y * y) / 2))
              (sel a.dM_err ia) (sel b.dM_err ib))
            (a.computed || b.computed) true))
        | _, _ => .error "TypeError: NoneType object is not subscriptable"
    else .ok none
  else .ok none

/-- `MassRateDataSeries.derive_rates` (rate_series.py lines 79-93):
`t0 = t[:-1]`, `t1 = t[1:]`, `dmdt = np.diff(mass)`, area averaged pairwise
when present, and `errs` taken from the input's error array unmodified. -/
def MassRateDataSeries.derive_rates (mass_data : MassChangeDataSeries) :
    MassRateDataSeries :=
  { user := mass_data.user
    user_group := mass_data.user_group
    data_group := mass_data.data_group
    basin_group := mass_data.basin_group
    basin_id := mass_data.basin_id
    basin_area := mass_data.basin_area
    t0 := mass_data.t.dropLast
    t1 := mass_data.t.tail
    dmdt := List.zipWith (fun x y => y - x) mass_data.mass.dropLast
      mass_data.mass.tail
    errs := mass_data.errs
    a := mass_data.a.map (fun l =>
      List.zipWith (fun x y => (x + y) / 2) l.dropLast l.tail)
    computed := true
    merged := false
    aggregated := mass_data.aggregated }

/-- `MassChangeDataSeries.accumulate_mass` (mass_series.py lines 52-61):
`t = (t0 + t1) / 2`, `dM = np.cumsum(rate_data.dMdt)` (note: no `× step`
factor — the source carries the comment `# / 12?`), errors carried from
`rate_data.dMdt_err`, result built through `__init__` with
`computed=True`.  The signature takes no offset argument. -/
def MassChangeDataSeries.accumulate_mass (rate_data : MassRateDataSeries) :
    MassChangeDataSeries :=
  MassChangeDataSeries.init rate_data.user rate_data.user_group
    rate_data.data_group rate_data.basin_group rate_data.basin_id
    rate_data.basin_area
    (List.zipWith (fun x y => (x + y) / 2) rate_data.t0 rate_data.t1)
    rate_data.a
    (cumsum rate_data.dMdt)
    rate_data.dMdt_err
    true

/-- `MassRateDataSeries.integrate` (rate_series.py lines 160-161) calls
`MassChangeDataSeries.accumulate_mass(self, offset=offset)`, but
`accumulate_mass` (mass_series.py line 53) accepts no `offset` parameter, so
every call — whatever the offset, including the default `None` — raises
`TypeError` before `accumulate_mass`'s body runs. -/
def MassRateDataSeries.integrate (_s : MassRateDataSeries)
    (_offset : Option ℚ := none) : Except String MassChangeDataSeries :=
  .error "TypeError: accumulate_mass() got an unexpected keyword argument"

/-- `WorkingMassRateDataSeries.integrate` (rate_series.py lines 219-220):
the same call with the same unexpected keyword argument, so it also raises
`TypeError` unconditionally. -/
def WorkingMassRateDataSeries.integrate (_s : WorkingMassRateDataSeries)
    (_offset : Option ℚ := none) : Except String MassChangeDataSeries :=
  .error "TypeError: accumulate_mass() got an unexpected keyword argument"

/-- `MassRateDataSeries.chunk_rates` (rate_series.py lines 132-158): point
samples (`t0 == t1`) form one pooled chunk; each interval sample becomes a
two-point constant chunk; both value and error chunks are fed through the
combination engine over the same time chunks, and the area array `self.a`
is carried over unchanged.  Only `aggregated` is forwarded to the result's
flags. -/
def MassRateDataSeries.chunk_rates (sq : ℚ → ℚ) (s : MassRateDataSeries) :
    WorkingMassRateDataSeries :=
  let okm := List.zipWith (fun x y => decide (x = y)) s.t0 s.t1
  let ivs := (((s.t0.zip s.t1).zip s.dmdt).zip s.errs).filter
    (fun q => decide (¬ q.1.1.1 = q.1.1.2))
  let timeChunks := maskFilter s.t0 okm :: ivs.map (fun q => [q.1.1.1, q.1.1.2])
  let dmdtChunks := maskFilter s.dmdt okm :: ivs.map (fun q => [q.1.2, q.1.2])
  let errsChunks := maskFilter s.errs okm :: ivs.map (fun q => [q.2, q.2])
  let td := weighted_combine sq timeChunks dmdtChunks false
  let te := weighted_combine sq timeChunks errsChunks true
  { user := s.user
    user_group := s.user_group
    data_group := s.data_group
    basin_group := s.basin_group
    basin_id := s.basin_id
    basin_area := s.basin_area
    t := td.1
    a := s.a
    dmdt := td.2
    errs := te.2
    computed := false
    merged := false
    aggregated := s.aggregated }

/-- `MassRateDataSeries._set_min_time` (rate_series.py lines 39-52): clip
each `t0` below `min_t` up to `min_t`, then drop every sample whose `t1` is
below `min_t`, filtering all five arrays by the same mask (the optional area
array is filtered when present; the source assumes it is an array). -/
def MassRateDataSeries.set_min_time (s : MassRateDataSeries) (minT : ℚ) :
    MassRateDataSeries :=
  let t0c := s.t0.map (fun v => if v < minT then minT else v)
  let okm := s.t1.map (fun v => !decide (v < minT))
  { s with
    t0 := maskFilter t0c okm
    t1 := maskFilter s.t1 okm
    dmdt := maskFilter s.dmdt okm
    errs := maskFilter s.errs okm
    a := s.a.map (fun l => maskFilter l okm) }

/-- `MassRateDataSeries._set_max_time` (rate_series.py lines 54-67): clip
each `t1` above `max_t` down to `max_t`, then drop every sample whose `t0`
is above `max_t`, filtering all five arrays by the same mask. -/
def MassRateDataSeries.set_max_time (s : MassRateDataSeries) (maxT : ℚ) :
    MassRateDataSeries :=
  let t1c := s.t1.map (fun v => if maxT < v then maxT else v)
  let okm := s.t0.map (fun v => !decide (maxT < v))
  { s with
    t0 := maskFilter s.t0 okm
    t1 := maskFilter t1c okm
    dmdt := maskFilter s.dmdt okm
    errs := maskFilter s.errs okm
    a := s.a.map (fun l => maskFilter l okm) }

/-- Modelled from the spec: the `truncate(t0, t1)` windowing entry point
(§4.5) lives on the `DataSeries` base class, which is not under `src/`; it
applies the minimum and then the maximum bound through the per-variant
`_set_min_time` / `_set_max_time` hooks. -/
def MassRateDataSeries.truncate (s : MassRateDataSeries) (w0 w1 : ℚ) :
    MassRateDataSeries :=
  (s.set_min_time w0).set_max_time w1

/-- `WorkingMassRateDataSeries._set_min_time` (rate_series.py lines
203-209): keep samples with `t >= min_t`. -/
def WorkingMassRateDataSeries.set_min_time (s : WorkingMassRateDataSeries)
    (minT : ℚ) : WorkingMassRateDataSeries :=
  let okm := s.t.map (fun v => decide (minT ≤ v))
  { s with
    t := maskFilter s.t okm
    dmdt := maskFilter s.dmdt okm
    a := s.a.map (fun l => maskFilter l okm)
    errs := maskFilter s.errs okm }

/-- `WorkingMassRateDataSeries._set_max_time` (rate_series.py lines
211-217): keep samples with `t <= max_t`. -/
def WorkingMassRateDataSeries.set_max_time (s : WorkingMassRateDataSeries)
    (maxT : ℚ) : WorkingMassRateDataSeries :=
  let okm := s.t.map (fun v => decide (v ≤ maxT))
  { s with
    t := maskFilter s.t okm
    dmdt := maskFilter s.dmdt okm
    a := s.a.map (fun l => maskFilter l okm)
    errs := maskFilter s.errs okm }

/-- Modelled from the spec: `truncate` for the working-rate variant (the
base-class entry point is not under `src/`). -/
def WorkingMassRateDataSeries.truncate (s : WorkingMassRateDataSeries)
    (w0 w1 : ℚ) : WorkingMassRateDataSeries :=
  (s.set_min_time w0).set_max_time w1

/-- `MassChangeDataSeries._set_min_time` (mass_series.py lines 36-42). -/
def MassChangeDataSeries.set_min_time (s : MassChangeDataSeries) (minT : ℚ) :
    MassChangeDataSeries :=
  let okm := s.t.map (fun v => decide (minT ≤ v))
  { s with
    t := maskFilter s.t okm
    dM := maskFilter s.dM okm
    a := s.a.map (fun l => maskFilter l okm)
    dM_err := maskFilter s.dM_err okm }

/-- `MassChangeDataSeries._set_max_time` (mass_series.py lines 44-50). -/
def MassChangeDataSeries.set_max_time (s : MassChangeDataSeries) (maxT : ℚ) :
    MassChangeDataSeries :=
  let okm := s.t.map (fun v => decide (v ≤ maxT))
  { s with
    t := maskFilter s.t okm
    dM := maskFilter s.dM okm
    a := s.a.map (fun l => maskFilter l okm)
    dM_err := maskFilter s.dM_err okm }

/-- Modelled from the spec: `truncate` for the mass variant (the base-class
entry point is not under `src/`). -/
def MassChangeDataSeries.truncate (s : MassChangeDataSeries) (w0 w1 : ℚ) :
    MassChangeDataSeries :=
  (s.set_min_time w0).set_max_time w1

/-- All parallel arrays of a rate-over-interval series share one length
(the §3 invariant, stated of the `t0` base length; an absent area array is
not counted). -/
def wfMR (s : MassRateDataSeries) : Prop :=
  s.t1.length = s.t0.length ∧ s.dmdt.length = s.t0.length ∧
    s.errs.length = s.t0.length ∧
    ∀ l, s.a = some l → l.length = s.t0.length

/-- All parallel arrays of a working-rate series share one length. -/
def wfW (s : WorkingMassRateDataSeries) : Prop :=
  s.dmdt.length = s.t.length ∧ s.errs.length = s.t.length ∧
    ∀ l, s.a = some l → l.length = s.t.length

/-- All parallel arrays of a mass series share one length. -/
def wfM (s : MassChangeDataSeries) : Prop :=
  s.dM.length = s.t.length ∧ s.dM_err.length = s.t.length ∧
    ∀ l, s.a = some l → l.length = s.t.length

/-- Concrete rate-over-interval series used in witnesses (scheme-A input). -/
def ra0 : MassRateDataSeries :=
  { user := some "u1", user_group := some "RA", data_group := some "ra"
    basin_group := BasinGroup.rignot, basin_id := "gris"
    basin_area := some 100
    t0 := [2000], t1 := [2001], dmdt := [3], errs := [1], a := some [10]
    computed := false, merged := false, aggregated := false }

/-- Concrete rate-over-interval series used in witnesses (scheme-B input,
different identity and flags from `ra0`). -/
def rb0 : MassRateDataSeries :=
  { user := some "u2", user_group := some "GMB", data_group := some "gmb"
    basin_group := BasinGroup.zwally, basin_id := "ais"
    basin_area := some 200
    t0 := [2000], t1 := [2001], dmdt := [5], errs := [1], a := some [20]
    computed := false, merged := false, aggregated := true }

/-- Hand-computed value of `MassRateDataSeries.merge sqId ra0 rb0`. -/
def mr0 : MassRateDataSeries :=
  { user := some "u1", user_group := some "RA", data_group := some "ra"
    basin_group := BasinGroup.sheets, basin_id := "gris"
    basin_area := some 100
    t0 := [2000], t1 := [2001], dmdt := [4], errs := [1], a := some [15]
    computed := false, merged := true, aggregated := true }

/-- Concrete working-rate series (first merge argument). -/
def wa0 : WorkingMassRateDataSeries :=
  { user := some "u1", user_group := some "RA", data_group := some "ra"
    basin_group := BasinGroup.rignot, basin_id := "gris"
    basin_area := some 100
    t := [2000], a := some [10], dmdt := [3], errs := [1]
    computed := false, merged := false, aggregated := false }

/-- Concrete working-rate series (second merge argument, different identity
and flags from `wa0`). -/
def wb0 : WorkingMassRateDataSeries :=
  { user := some "u2", user_group := some "GMB", data_group := some "gmb"
    basin_group := BasinGroup.zwally, basin_id := "ais"
    basin_area := some 200
    t := [2000], a := some [20], dmdt := [5], errs := [1]
    computed := false, merged := false, aggregated := true }

/-- Hand-computed value of `WorkingMassRateDataSeries.merge sqId wa0 wb0`:
note the absent area array. -/
def wr0 : WorkingMassRateDataSeries :=
  { user := some "u1", user_group := some "RA", data_group := some "ra"
    basin_group := BasinGroup.sheets, basin_id := "gris"
    basin_area := some 100
    t := [2000], a := none, dmdt := [4], errs := [1]
    computed := false, merged := true, aggregated := true }

/-- `wa0` with an absent contributor name (the identity record allows it). -/
def waN : WorkingMassRateDataSeries :=
  { wa0 with user := none }

/-- Concrete mass series (first merge argument). -/
def ma0 : MassChangeDataSeries :=
  { user := some "u1", user_group := some "RA", data_group := some "ra"
    basin_group := BasinGroup.rignot, basin_id := "gris"
    basin_area := some 100
    t := [2000], dM := [3], a := some [10], dM_err := [1]
    computed := false, merged := false, aggregated := false }

/-- Concrete mass series (second merge argument). -/
def mb0 : MassChangeDataSeries :=
  { user := some "u2", user_group := some "GMB", data_group := some "gmb"
    basin_group := BasinGroup.zwally, basin_id := "ais"
    basin_area := some 200
    t := [2000], dM := [5], a := some [20], dM_err := [1]
    computed := false, merged := false, aggregated := false }

/-- `ma0` with the `aggregated` provenance flag set. -/
def maT : MassChangeDataSeries :=
  { ma0 with aggregated := true }

/-- Hand-computed value of `MassChangeDataSeries.merge sqId ma0 mb0` (and of
`MassChangeDataSeries.merge sqId maT mb0` — the inputs' `aggregated` flag
cannot reach the result). -/
def mm0 : MassChangeDataSeries :=
  { user := some "u1", user_group := some "RA", data_group := some "ra"
    basin_group := BasinGroup.sheets, basin_id := "gris"
    basin_area := some 100
    t := [2000], dM := [4], a := some [15], dM_err := [1]
    computed := false, merged := true, aggregated := false }

/-- Concrete rate series for the truncation example: one interval entirely
outside the window `[1999.5, 2000.5]` and one interval straddling its lower
boundary. -/
def rt5 : MassRateDataSeries :=
  { user := some "u1", user_group := some "RA", data_group := some "ra"
    basin_group := BasinGroup.rignot, basin_id := "gris"
    basin_area := some 100
    t0 := [1990, 1999], t1 := [1991, 2000], dmdt := [1, 2], errs := [1, 1]
    a := some [5, 5]
    computed := false, merged := false, aggregated := false }

/-- Hand-computed value of `rt5.truncate (3999/2) (4001/2)`: the outside
interval `[1990, 1991]` is removed, the straddling interval `[1999, 2000]`
is clipped to `[1999.5, 2000]` — its end stays `2000`, it is not extended to
the window's upper bound `2000.5`. -/
def rt5T : MassRateDataSeries :=
  { rt5 with
    t0 := [3999/2], t1 := [2000], dmdt := [2], errs := [1], a := some [5] }

/-- Concrete two-sample mass series for derivative/round-trip checks. -/
def m7 : MassChangeDataSeries :=
  { user := some "u1", user_group := some "RA", data_group := some "ra"
    basin_group := BasinGroup.rignot, basin_id := "gris"
    basin_area := some 100
    t := [2000, 4001/2], dM := [3, 5], a := some [2, 4], dM_err := [1, 1]
    computed := false, merged := false, aggregated := false }

/-- Concrete rate series on a monthly grid (two point samples one month
apart, rate 12 per year) used to exhibit the missing `× step` factor in
`accumulate_mass`. -/
def rc : MassRateDataSeries :=
  { user := some "u1", user_group := some "RA", data_group := some "ra"
    basin_group := BasinGroup.rignot, basin_id := "gris"
    basin_area := some 100
    t0 := [2000, 24001/12], t1 := [2000, 24001/12], dmdt := [12, 12]
    errs := [1, 1], a := some [1, 1]
    computed := false, merged := false, aggregated := false }

lemma sel_length (l : List ℚ) (idx : List ℕ) : (sel l idx).length = idx.length := by
  simp [sel]

lemma matchGo_length_eq (fuel : ℕ) :
    ∀ (xs ys : List ℚ) (i j : ℕ),
      (matchGo fuel xs ys i j).1.length = (matchGo fuel xs ys i j).2.length := by
  induction fuel with
  | zero => intro xs ys i j; simp [matchGo]
  | succ n ih =>
    intro xs ys i j
    cases xs with
    | nil => simp [matchGo]
    | cons x xs =>
      cases ys with
      | nil => simp [matchGo]
      | cons y ys =>
        by_cases hxy : x = y
        · simp only [matchGo, if_pos hxy]
          simpa using ih xs ys (i + 1) (j + 1)
        · by_cases hlt : x < y
          · simpa only [matchGo, if_neg hxy, if_pos hlt] using ih xs (y :: ys) (i + 1) j
          · simpa only [matchGo, if_neg hxy, if_neg hlt] using ih (x :: xs) ys i (j + 1)

lemma matchTimes_length_eq (ta tb : List ℚ) :
    (matchTimes ta tb).1.length = (matchTimes ta tb).2.length :=
  matchGo_length_eq _ ta tb 0 0

lemma cumsum_length (l : List ℚ) : (cumsum l).length = l.length := by
  simp [cumsum, List.length_scanl]

lemma maskFilter_nil (ok : List Bool) : maskFilter [] ok = [] := by
  simp [maskFilter]

lemma maskFilter_cons (x : ℚ) (xs : List ℚ) (o : Bool) (os : List Bool) :
    maskFilter (x :: xs) (o :: os) =
      if o then x :: maskFilter xs os else maskFilter xs os := by
  cases o <;> simp [maskFilter]

lemma maskFilter_length_congr (ok : List Bool) :
    ∀ (xs ys : List ℚ), xs.length = ys.length →
      (maskFilter xs ok).length = (maskFilter ys ok).length := by
  induction ok with
  | nil => intro xs ys _; simp [maskFilter]
  | cons o os ih =>
    intro xs ys h
    cases xs with
    | nil =>
      cases ys with
      | nil => rfl
      | cons y ys => simp at h
    | cons x xs =>
      cases ys with
      | nil => simp at h
      | cons y ys =>
        simp only [List.length_cons, Nat.add_right_cancel_iff] at h
        cases o
        · simpa [maskFilter_cons] using ih xs ys h
        · simpa [maskFilter_cons] using ih xs ys h

lemma MRmerge_ok_elim {sq : ℚ → ℚ} {a b r : MassRateDataSeries}
    (h : MassRateDataSeries.merge sq a b = .ok (some r)) :
    ∃ la lb, a.a = some la ∧ b.a = some lb ∧
      a.t0.length = b.t0.length ∧
      (matchTimes a.t0 b.t0).1.length = a.t0.length ∧
      (matchTimes a.t0 b.t0).2.length = b.t0.length ∧
      r = mergedMR sq a b la lb := by
  unfold MassRateDataSeries.merge at h
  dsimp only at h
  split_ifs at h with h1 h2
  · cases ha : a.a with
    | none => rw [ha] at h; cases hb : b.a <;> rw [hb] at h <;> simp at h
    | some la =>
      cases hb : b.a with
      | none => rw [ha, hb] at h; simp at h
      | some lb =>
        rw [ha, hb] at h
        simp only [Except.ok.injEq, Option.some.injEq] at h
        exact ⟨la, lb, rfl, rfl, h1, h2.1, h2.2, h.symm⟩
  · simp at h
  · simp at h

lemma Wmerge_ok_elim {sq : ℚ → ℚ} {a b r : WorkingMassRateDataSeries}
    (h : WorkingMassRateDataSeries.merge sq a b = .ok (some r)) :
    ∃ u, a.user = some u ∧
      a.t.length = b.t.length ∧
      (matchTimes a.t b.t).1.length = a.t.length ∧
      (matchTimes a.t b.t).2.length = b.t.length ∧
      r = mergedW sq a b := by
  unfold WorkingMassRateDataSeries.merge at h
  dsimp only at h
  cases hu : a.user with
  | none => rw [hu] at h; simp at h
  | some u =>
    rw [hu] at h
    split_ifs at h with h1 h2
    · simp only [Except.ok.injEq, Option.some.injEq] at h
      exact ⟨u, rfl, h1, h2.1, h2.2, h.symm⟩
    · simp at h
    · simp at h

lemma Mmerge_ok_elim {sq : ℚ → ℚ} {a b r : MassChangeDataSeries}
    (h : MassChangeDataSeries.merge sq a b = .ok (some r)) :
    ∃ la lb, a.a = some la ∧ b.a = some lb ∧
      a.t.length = b.t.length ∧
      (matchTimes a.t b.t).1.length = a.t.length ∧
      (matchTimes a.t b.t).2.length = b.t.length ∧
      (matchTimes a.t b.t).1.length ≠ 0 ∧
      r = MassChangeDataSeries.init a.user a.user_group a.data_group
        BasinGroup.sheets a.basin_id a.basin_area
        (sel a.t (matchTimes a.t b.t).1)
        (some (List.zipWith (fun x y => (x + y) / 2)
          (sel la (matchTimes a.t b.t).1) (sel lb (matchTimes a.t b.t).2)))
        (List.zipWith (fun x y => (x + y) / 2)
          (sel a.dM (matchTimes a.t b.t).1) (sel b.dM (matchTimes a.t b.t).2))
        (List.zipWith (fun x y => sq ((x * x + y * y) / 2))
          (sel a.dM_err (matchTimes a.t b.t).1)
          (sel b.dM_err (matchTimes a.t b.t).2))
        (a.computed || b.computed) true := by
  unfold MassChangeDataSeries.merge at h
  dsimp only at h
  split_ifs at h with h1 h2 h3
  · simp at h
  · cases ha : a.a with
    | none => rw [ha] at h; cases hb : b.a <;> rw [hb] at h <;> simp at h
    | some la =>
      cases hb : b.a with
      | none => rw [ha, hb] at h; simp at h
      | some lb =>
        rw [ha, hb] at h
        simp only [Except.ok.injEq, Option.some.injEq] at h
        exact ⟨la, lb, rfl, rfl, h1, h2.1, h2.2, h3, h.symm⟩
  · simp at h
  · simp at h

/-- Claim C1 (corrected).  For every pair of same-variant series whose merge
returns a result, the result's values are the elementwise arithmetic mean and
its errors are `sqrt((ea² + eb²)/2)` over the matched indices, in all three
variants, for every square-root implementation `sq`; the result's areas are
the elementwise mean of the matched input areas for the rate-over-interval
and cumulative-mass variants, but the working-rate merge discards area — its
result's area array is absent (`ar = None` in the source, the averaging line
being commented out). -/
theorem c1_merge_pooling :
    (∀ (sq : ℚ → ℚ) (a b r : MassRateDataSeries),
      MassRateDataSeries.merge sq a b = .ok (some r) →
      r.dmdt = List.zipWith (fun x y => (x + y) / 2)
        (sel a.dmdt (matchTimes a.t0 b.t0).1)
        (sel b.dmdt (matchTimes a.t0 b.t0).2) ∧
      r.errs = List.zipWith (fun x y => sq ((x * x + y * y) / 2))
        (sel a.errs (matchTimes a.t0 b.t0).1)
        (sel b.errs (matchTimes a.t0 b.t0).2) ∧
      ∀ la lb, a.a = some la → b.a = some lb →
        r.a = some (List.zipWith (fun x y => (x + y) / 2)
          (sel la (matchTimes a.t0 b.t0).1)
          (sel lb (matchTimes a.t0 b.t0).2))) ∧
    (∀ (sq : ℚ → ℚ) (a b r : WorkingMassRateDataSeries),
      WorkingMassRateDataSeries.merge sq a b = .ok (some r) →
      r.dmdt = List.zipWith (fun x y => (x + y) / 2)
        (sel a.dmdt (matchTimes a.t b.t).1)
        (sel b.dmdt (matchTimes a.t b.t).2) ∧
      r.errs = List.zipWith (fun x y => sq ((x * x + y * y) / 2))
        (sel a.errs (matchTimes a.t b.t).1)
        (sel b.errs (matchTimes a.t b.t).2) ∧
      r.a = none) ∧
    (∀ (sq : ℚ → ℚ) (a b r : MassChangeDataSeries),
      MassChangeDataSeries.merge sq a b = .ok (some r) →
      r.dM = List.zipWith (fun x y => (x + y) / 2)
        (sel a.dM (matchTimes a.t b.t).1)
        (sel b.dM (matchTimes a.t b.t).2) ∧
      r.dM_err = List.zipWith (fun x y => sq ((x * x + y * y) / 2))
        (sel a.dM_err (matchTimes a.t b.t).1)
        (sel b.dM_err (matchTimes a.t b.t).2) ∧
      ∀ la lb, a.a = some la → b.a = some lb →
        r.a = some (List.zipWith (fun x y => (x + y) / 2)
          (sel la (matchTimes a.t b.t).1)
          (sel lb (matchTimes a.t b.t).2))) := by
  refine ⟨?_, ?_, ?_⟩
  · intro sq a b r h
    obtain ⟨la, lb, ha, hb, -, -, -, hr⟩ := MRmerge_ok_elim h
    subst hr
    refine ⟨rfl, rfl, ?_⟩
    intro la' lb' ha' hb'
    rw [ha] at ha'; rw [hb] at hb'
    cases ha'; cases hb'
    rfl
  · intro sq a b r h
    obtain ⟨u, -, -, -, -, hr⟩ := Wmerge_ok_elim h
    subst hr
    exact ⟨rfl, rfl, rfl⟩
  · intro sq a b r h
    obtain ⟨la, lb, ha, hb, -, -, -, -, hr⟩ := Mmerge_ok_elim h
    subst hr
    refine ⟨rfl, rfl, ?_⟩
    intro la' lb' ha' hb'
    rw [ha] at ha'; rw [hb] at hb'
    cases ha'; cases hb'
    rfl

/-- Claim C1, counterexample to the claim as stated: the working-rate merge
of `wa0` (areas `[10]`) and `wb0` (areas `[20]`) succeeds, but the result's
area array is `None`, not the elementwise mean `[15]`. -/
theorem c1_merge_pooling_cex :
    WorkingMassRateDataSeries.merge sqId wa0 wb0 = .ok (some wr0) ∧
    wa0.a = some [10] ∧ wb0.a = some [20] ∧
    wr0.a = none ∧
    (none : Option (List ℚ)) ≠
      some (List.zipWith (fun x y => (x + y) / 2) [(10 : ℚ)] [20]) := by
  refine ⟨?_, rfl, rfl, rfl, by simp⟩
  norm_num [WorkingMassRateDataSeries.merge, mergedW, matchTimes, matchGo, sel,
    sqId, wa0, wb0, wr0]

/-- Claim C1, witness: the amended theorem applied at concrete merges of each
variant. -/
theorem c1_merge_pooling_witness :
    MassRateDataSeries.merge sqId ra0 rb0 = .ok (some mr0) ∧
    WorkingMassRateDataSeries.merge sqId wa0 wb0 = .ok (some wr0) ∧
    MassChangeDataSeries.merge sqId ma0 mb0 = .ok (some mm0) ∧
    mr0.dmdt = List.zipWith (fun x y => (x + y) / 2)
      (sel ra0.dmdt (matchTimes ra0.t0 rb0.t0).1)
      (sel rb0.dmdt (matchTimes ra0.t0 rb0.t0).2) ∧
    mr0.a = some (List.zipWith (fun x y => (x + y) / 2)
      (sel [10] (matchTimes ra0.t0 rb0.t0).1)
      (sel [20] (matchTimes ra0.t0 rb0.t0).2)) ∧
    wr0.a = none ∧
    mm0.dM = List.zipWith (fun x y => (x + y) / 2)
      (sel ma0.dM (matchTimes ma0.t mb0.t).1)
      (sel mb0.dM (matchTimes ma0.t mb0.t).2) := by
  have hmr : MassRateDataSeries.merge sqId ra0 rb0 = .ok (some mr0) := by
    norm_num [MassRateDataSeries.merge, mergedMR, matchTimes, matchGo, sel,
      sqId, ra0, rb0, mr0]
  have hw : WorkingMassRateDataSeries.merge sqId wa0 wb0 = .ok (some wr0) := by
    norm_num [WorkingMassRateDataSeries.merge, mergedW, matchTimes, matchGo,
      sel, sqId, wa0, wb0, wr0]
  have hm : MassChangeDataSeries.merge sqId ma0 mb0 = .ok (some mm0) := by
    norm_num [MassChangeDataSeries.merge, MassChangeDataSeries.init,
      matchTimes, matchGo, sel, sqId, ma0, mb0, mm0]
  exact ⟨hmr, hw, hm,
    (c1_merge_pooling.1 sqId ra0 rb0 mr0 hmr).1,
    (c1_merge_pooling.1 sqId ra0 rb0 mr0 hmr).2.2 [10] [20] rfl rfl,
    (c1_merge_pooling.2.1 sqId wa0 wb0 wr0 hw).2.2,
    (c1_merge_pooling.2.2 sqId ma0 mb0 mm0 hm).1⟩

/-- Claim C2 (code bug).  The claim says `integrate(offset)` returns the
cumulative running sum of rate×step, aligned at the optional offset.  In the
code, both `integrate` methods call
`MassChangeDataSeries.accumulate_mass(self, offset=offset)` while
`accumulate_mass` accepts no `offset` parameter, so every `integrate` call
raises `TypeError` (first two conjuncts); moreover `accumulate_mass` itself
computes `np.cumsum(dmdt)` with no `× step` factor: on a monthly grid
(`rc`, step `1/12`, rate `12`) it yields `[12, 24]`, whereas the cumulative
sum of rate×step is `[1, 2]`. -/
theorem c2_integrate_is_broken :
    (∀ (s : MassRateDataSeries) (off : Option ℚ),
      s.integrate off =
        .error "TypeError: accumulate_mass() got an unexpected keyword argument") ∧
    (∀ (s : WorkingMassRateDataSeries) (off : Option ℚ),
      s.integrate off =
        .error "TypeError: accumulate_mass() got an unexpected keyword argument") ∧
    (MassChangeDataSeries.accumulate_mass rc).dM = [12, 24] ∧
    cumsum (rc.dmdt.map (fun r => r * (1 / 12))) = [1, 2] ∧
    ([12, 24] : List ℚ) ≠ [1, 2] := by
  refine ⟨fun _ _ => rfl, fun _ _ => rfl, ?_, ?_, by norm_num⟩
  · norm_num [MassChangeDataSeries.accumulate_mass, MassChangeDataSeries.init,
      MassRateDataSeries.dMdt, MassRateDataSeries.dMdt_err, cumsum, rc]
  · norm_num [cumsum, rc]

/-- Claim C3 (code bug).  The round trip `integrate(derive_rates(m))` cannot
produce a series: `integrate` raises `TypeError` (the `offset=` keyword its
call passes does not exist on `accumulate_mass`), shown here at the concrete
mass series `m7`.  Bypassing the broken wrapper, the underlying
`accumulate_mass ∘ derive_rates` composition does reconstruct the original
inter-sample mass differences exactly: `cumsum ∘ diff` applied to
`m7.dM = [3, 5]` yields `[2]`, equal to `np.diff(m7.dM)`. -/
theorem c3_roundtrip_blocked :
    (MassRateDataSeries.derive_rates m7).integrate (some 2005) =
      .error "TypeError: accumulate_mass() got an unexpected keyword argument" ∧
    (MassChangeDataSeries.accumulate_mass
      (MassRateDataSeries.derive_rates m7)).dM = [2] ∧
    npdiff m7.dM = [2] := by
  refine ⟨rfl, ?_, by norm_num [npdiff, m7]⟩
  norm_num [MassChangeDataSeries.accumulate_mass, MassChangeDataSeries.init,
    MassRateDataSeries.dMdt, MassRateDataSeries.dMdt_err, cumsum,
    MassRateDataSeries.derive_rates, MassChangeDataSeries.errs, m7]

/-- Two-sample rate series, an incompatible merge partner for `ra0`. -/
def raL : MassRateDataSeries :=
  { ra0 with t0 := [2000, 2002], t1 := [2001, 2003], dmdt := [3, 3]
             errs := [1, 1], a := some [10, 10] }

/-- Two-sample working-rate series, an incompatible merge partner for
`wa0`. -/
def wbL : WorkingMassRateDataSeries :=
  { wb0 with t := [2000, 2002], dmdt := [5, 5], errs := [1, 1]
             a := some [20, 20] }

/-- Two-sample mass series, an incompatible merge partner for `ma0`. -/
def mbL : MassChangeDataSeries :=
  { mb0 with t := [2000, 2002], dM := [5, 5], dM_err := [1, 1]
             a := some [20, 20] }

/-- Claim C4 (corrected).  `merge` signals incompatibility — mismatched
lengths, or incomplete match coverage (and, for the mass variant, an empty
match) — by returning `None` and raises no exception, provided the inputs
reach the checks intact: for the rate-over-interval and mass variants both
inputs must carry area arrays (the success path indexes them, so an absent
area raises `TypeError`), and for the working-rate variant the first
argument's contributor name must be present (leftover debug code calls
`a.user.lower()` before any check, raising `AttributeError` on `None`). -/
theorem c4_merge_returns_none :
    (∀ (sq : ℚ → ℚ) (a b : MassRateDataSeries) (la lb : List ℚ),
      a.a = some la → b.a = some lb →
      (∀ e, MassRateDataSeries.merge sq a b ≠ .error e) ∧
      (¬(a.t0.length = b.t0.length ∧
          ((matchTimes a.t0 b.t0).1.length = a.t0.length ∧
            (matchTimes a.t0 b.t0).2.length = b.t0.length)) →
        MassRateDataSeries.merge sq a b = .ok none)) ∧
    (∀ (sq : ℚ → ℚ) (a b : WorkingMassRateDataSeries) (u : String),
      a.user = some u →
      (∀ e, WorkingMassRateDataSeries.merge sq a b ≠ .error e) ∧
      (¬(a.t.length = b.t.length ∧
          ((matchTimes a.t b.t).1.length = a.t.length ∧
            (matchTimes a.t b.t).2.length = b.t.length)) →
        WorkingMassRateDataSeries.merge sq a b = .ok none)) ∧
    (∀ (sq : ℚ → ℚ) (a b : MassChangeDataSeries) (la lb : List ℚ),
      a.a = some la → b.a = some lb →
      (∀ e, MassChangeDataSeries.merge sq a b ≠ .error e) ∧
      (¬(a.t.length = b.t.length ∧
          ((matchTimes a.t b.t).1.length = a.t.length ∧
            (matchTimes a.t b.t).2.length = b.t.length)) ∨
          (matchTimes a.t b.t).1.length = 0 →
        MassChangeDataSeries.merge sq a b = .ok none)) := by
  refine ⟨?_, ?_, ?_⟩
  · intro sq a b la lb ha hb
    constructor
    · intro e he
      unfold MassRateDataSeries.merge at he
      dsimp only at he
      split_ifs at he with h1 h2
      rw [ha, hb] at he
      simp at he
    · intro hnot
      unfold MassRateDataSeries.merge
      dsimp only
      by_cases h1 : a.t0.length = b.t0.length
      · rw [if_pos h1]
        by_cases h2 : (matchTimes a.t0 b.t0).1.length = a.t0.length ∧
            (matchTimes a.t0 b.t0).2.length = b.t0.length
        · exact absurd ⟨h1, h2⟩ hnot
        · rw [if_neg h2]
      · rw [if_neg h1]
  · intro sq a b u hu
    constructor
    · intro e he
      unfold WorkingMassRateDataSeries.merge at he
      dsimp only at he
      rw [hu] at he
      split_ifs at he
    · intro hnot
      unfold WorkingMassRateDataSeries.merge
      dsimp only
      rw [hu]
      by_cases h1 : a.t.length = b.t.length
      · rw [if_pos h1]
        by_cases h2 : (matchTimes a.t b.t).1.length = a.t.length ∧
            (matchTimes a.t b.t).2.length = b.t.length
        · exact absurd ⟨h1, h2⟩ hnot
        · rw [if_neg h2]
      · rw [if_neg h1]
  · intro sq a b la lb ha hb
    constructor
    · intro e he
      unfold MassChangeDataSeries.merge at he
      dsimp only at he
      split_ifs at he with h1 h2 h3
      rw [ha, hb] at he
      simp at he
    · intro hnone
      unfold MassChangeDataSeries.merge
      dsimp only
      by_cases h1 : a.t.length = b.t.length
      · rw [if_pos h1]
        by_cases h2 : (matchTimes a.t b.t).1.length = a.t.length ∧
            (matchTimes a.t b.t).2.length = b.t.length
        · rw [if_pos h2]
          have hz : (matchTimes a.t b.t).1.length = 0 := by
            rcases hnone with h | h
            · exact absurd ⟨h1, h2⟩ h
            · exact h
          rw [if_pos hz]
        · rw [if_neg h2]
      · rw [if_neg h1]

/-- Claim C4, counterexample to the claim as stated: merging two working-rate
series whose first argument has an absent contributor name raises
`AttributeError` (from the leftover `a.user.lower()` debug check) instead of
returning an absent result. -/
theorem c4_merge_returns_none_cex :
    WorkingMassRateDataSeries.merge sqId waN wb0 =
      .error "AttributeError: NoneType object has no attribute lower" := rfl

/-- Claim C4, witness: concrete incompatible pairs of each variant merge to
`None`, and a concrete compatible rate pair does not raise. -/
theorem c4_merge_returns_none_witness :
    MassRateDataSeries.merge sqId ra0 raL = .ok none ∧
    MassRateDataSeries.merge sqId ra0 rb0 ≠
      .error "TypeError: NoneType object is not subscriptable" ∧
    WorkingMassRateDataSeries.merge sqId wa0 wbL = .ok none ∧
    MassChangeDataSeries.merge sqId ma0 mbL = .ok none :=
  ⟨(c4_merge_returns_none.1 sqId ra0 raL [10] [10, 10] rfl rfl).2
      (by simp [ra0, raL]),
    (c4_merge_returns_none.1 sqId ra0 rb0 [10] [20] rfl rfl).1
      "TypeError: NoneType object is not subscriptable",
    (c4_merge_returns_none.2.1 sqId wa0 wbL "u1" rfl).2
      (by simp [wa0, wbL, wb0]),
    (c4_merge_returns_none.2.2 sqId ma0 mbL [10] [20, 20] rfl rfl).2
      (Or.inl (by simp [ma0, mbL, mb0]))⟩

/-- Claim C5 (corrected).  Restricting the rate series `rt5` to the window
`[1999.5, 2000.5]` removes the interval `[1990, 1991]` (entirely outside the
window) and clips the straddling interval `[1999, 2000]` at the crossed
boundary rather than dropping it — but clipping only shrinks an interval, so
the single retained interval is `[1999.5, 2000]`, not `[1999.5, 2000.5]` as
the claim's example states: the end that already lies inside the window is
left unchanged. -/
theorem c5_truncate_clips :
    rt5.truncate (3999 / 2) (4001 / 2) = rt5T := by
  norm_num [MassRateDataSeries.truncate, MassRateDataSeries.set_min_time,
    MassRateDataSeries.set_max_time, maskFilter, rt5, rt5T,
    List.filterMap_cons, List.filterMap_nil]

/-- Claim C5, counterexample to the claim as stated: the retained interval's
end is `2000`, not the window bound `2000.5` the claim predicts. -/
theorem c5_truncate_clips_cex :
    (rt5.truncate (3999 / 2) (4001 / 2)).t1 = [2000] ∧
    ([2000] : List ℚ) ≠ [4001 / 2] := by
  constructor
  · norm_num [MassRateDataSeries.truncate, MassRateDataSeries.set_min_time,
      MassRateDataSeries.set_max_time, maskFilter, rt5,
      List.filterMap_cons, List.filterMap_nil]
  · norm_num

/-- Claim C6 (confirmed).  `derive_rates` produces the first differences of
consecutive mass samples as values, consecutive sample times as interval
bounds `t0`/`t1` (so each interval length equals the original sampling gap),
and carries the input series' error array forward unmodified. -/
theorem c6_derive_rates_spec :
    ∀ m : MassChangeDataSeries,
      (MassRateDataSeries.derive_rates m).dmdt = npdiff m.dM ∧
      (MassRateDataSeries.derive_rates m).t0 = m.t.dropLast ∧
      (MassRateDataSeries.derive_rates m).t1 = m.t.tail ∧
      List.zipWith (fun x y => y - x) (MassRateDataSeries.derive_rates m).t0
        (MassRateDataSeries.derive_rates m).t1 = npdiff m.t ∧
      (MassRateDataSeries.derive_rates m).errs = m.errs :=
  fun _ => ⟨rfl, rfl, rfl, rfl, rfl⟩

lemma wfMR_set_min_time {s : MassRateDataSeries} (hw : wfMR s) (w : ℚ) :
    wfMR (s.set_min_time w) := by
  obtain ⟨h1, h2, h3, h4⟩ := hw
  unfold MassRateDataSeries.set_min_time
  dsimp only
  refine ⟨?_, ?_, ?_, ?_⟩
  · exact maskFilter_length_congr _ _ _ (by simp [h1])
  · exact maskFilter_length_congr _ _ _ (by simp [h2])
  · exact maskFilter_length_congr _ _ _ (by simp [h3])
  · intro l hl
    cases ha : s.a with
    | none => rw [ha] at hl; simp at hl
    | some la =>
      rw [ha] at hl
      simp only [Option.map_some', Option.some.injEq] at hl
      subst hl
      exact maskFilter_length_congr _ _ _ (by simp [h4 la ha])

lemma wfMR_set_max_time {s : MassRateDataSeries} (hw : wfMR s) (w : ℚ) :
    wfMR (s.set_max_time w) := by
  obtain ⟨h1, h2, h3, h4⟩ := hw
  unfold MassRateDataSeries.set_max_time
  dsimp only
  refine ⟨?_, ?_, ?_, ?_⟩
  · exact maskFilter_length_congr _ _ _ (by simp [h1])
  · exact maskFilter_length_congr _ _ _ (by simp [h2])
  · exact maskFilter_length_congr _ _ _ (by simp [h3])
  · intro l hl
    cases ha : s.a with
    | none => rw [ha] at hl; simp at hl
    | some la =>
      rw [ha] at hl
      simp only [Option.map_some', Option.some.injEq] at hl
      subst hl
      exact maskFilter_length_congr _ _ _ (by simp [h4 la ha])

lemma wfW_set_time {s : WorkingMassRateDataSeries} (hw : wfW s)
    (okm : List Bool) :
    wfW { s with
      t := maskFilter s.t okm
      dmdt := maskFilter s.dmdt okm
      a := s.a.map (fun l => maskFilter l okm)
      errs := maskFilter s.errs okm } := by
  obtain ⟨h1, h2, h3⟩ := hw
  refine ⟨maskFilter_length_congr _ _ _ h1, maskFilter_length_congr _ _ _ h2, ?_⟩
  intro l hl
  cases ha : s.a with
  | none => rw [ha] at hl; simp at hl
  | some la =>
    rw [ha] at hl
    simp only [Option.map_some', Option.some.injEq] at hl
    subst hl
    exact maskFilter_length_congr _ _ _ (h3 la ha)

lemma wfM_set_time {s : MassChangeDataSeries} (hw : wfM s) (okm : List Bool) :
    wfM { s with
      t := maskFilter s.t okm
      dM := maskFilter s.dM okm
      a := s.a.map (fun l => maskFilter l okm)
      dM_err := maskFilter s.dM_err okm } := by
  obtain ⟨h1, h2, h3⟩ := hw
  refine ⟨maskFilter_length_congr _ _ _ h1, maskFilter_length_congr _ _ _ h2, ?_⟩
  intro l hl
  cases ha : s.a with
  | none => rw [ha] at hl; simp at hl
  | some la =>
    rw [ha] at hl
    simp only [Option.map_some', Option.some.injEq] at hl
    subst hl
    exact maskFilter_length_congr _ _ _ (h3 la ha)

/-- Claim C7 (corrected).  Every series produced by a merge (all three
variants), by `accumulate_mass`, or by window restriction (all three
variants) has all its per-entity parallel arrays sharing one length — but
two core operations violate the invariant: `derive_rates` carries the input
error array at its full input length while its other arrays have one entry
fewer, and `chunk_rates` carries the input area array unchanged while its
time/value/error arrays live on the combined regular grid (those three do
share one length among themselves). -/
theorem c7_array_length_invariant :
    (∀ (sq : ℚ → ℚ) (a b r : MassRateDataSeries),
      MassRateDataSeries.merge sq a b = .ok (some r) → wfMR r) ∧
    (∀ (sq : ℚ → ℚ) (a b r : WorkingMassRateDataSeries),
      WorkingMassRateDataSeries.merge sq a b = .ok (some r) → wfW r) ∧
    (∀ (sq : ℚ → ℚ) (a b r : MassChangeDataSeries),
      MassChangeDataSeries.merge sq a b = .ok (some r) → wfM r) ∧
    (∀ s : MassRateDataSeries, wfMR s →
      wfM (MassChangeDataSeries.accumulate_mass s)) ∧
    (∀ (s : MassRateDataSeries) (w0 w1 : ℚ), wfMR s →
      wfMR (s.truncate w0 w1)) ∧
    (∀ (s : WorkingMassRateDataSeries) (w0 w1 : ℚ), wfW s →
      wfW (s.truncate w0 w1)) ∧
    (∀ (s : MassChangeDataSeries) (w0 w1 : ℚ), wfM s →
      wfM (s.truncate w0 w1)) ∧
    (∀ m : MassChangeDataSeries, wfM m →
      (MassRateDataSeries.derive_rates m).t1.length =
        (MassRateDataSeries.derive_rates m).t0.length ∧
      (MassRateDataSeries.derive_rates m).dmdt.length =
        (MassRateDataSeries.derive_rates m).t0.length ∧
      (∀ l, (MassRateDataSeries.derive_rates m).a = some l →
        l.length = (MassRateDataSeries.derive_rates m).t0.length) ∧
      (MassRateDataSeries.derive_rates m).t0.length = m.t.length - 1 ∧
      (MassRateDataSeries.derive_rates m).errs.length = m.t.length) ∧
    (∀ (sq : ℚ → ℚ) (s : MassRateDataSeries),
      (MassRateDataSeries.chunk_rates sq s).dmdt.length =
        (MassRateDataSeries.chunk_rates sq s).t.length ∧
      (MassRateDataSeries.chunk_rates sq s).errs.length =
        (MassRateDataSeries.chunk_rates sq s).t.length ∧
      (MassRateDataSeries.chunk_rates sq s).a = s.a) := by
  refine ⟨?_, ?_, ?_, ?_, ?_, ?_, ?_, ?_, ?_⟩
  · intro sq a b r h
    obtain ⟨la, lb, ha, hb, h1, h2, h3, hr⟩ := MRmerge_ok_elim h
    subst hr
    have hib : (matchTimes a.t0 b.t0).2.length = (matchTimes a.t0 b.t0).1.length := by
      rw [h3, h2, h1]
    unfold wfMR mergedMR
    dsimp only
    refine ⟨?_, ?_, ?_, ?_⟩
    · simp [sel_length]
    · simp [List.length_zipWith, sel_length, hib]
    · simp [List.length_zipWith, sel_length, hib]
    · intro l hl
      simp only [Option.some.injEq] at hl
      subst hl
      simp [List.length_zipWith, sel_length, hib]
  · intro sq a b r h
    obtain ⟨u, hu, h1, h2, h3, hr⟩ := Wmerge_ok_elim h
    subst hr
    have hib : (matchTimes a.t b.t).2.length = (matchTimes a.t b.t).1.length := by
      rw [h3, h2, h1]
    unfold wfW mergedW
    dsimp only
    refine ⟨?_, ?_, ?_⟩
    · simp [List.length_zipWith, sel_length, hib]
    · simp [List.length_zipWith, sel_length, hib]
    · intro l hl; simp at hl
  · intro sq a b r h
    obtain ⟨la, lb, ha, hb, h1, h2, h3, hz, hr⟩ := Mmerge_ok_elim h
    subst hr
    have hib : (matchTimes a.t b.t).2.length = (matchTimes a.t b.t).1.length := by
      rw [h3, h2, h1]
    unfold wfM MassChangeDataSeries.init
    dsimp only
    refine ⟨?_, ?_, ?_⟩
    · simp [List.length_zipWith, sel_length, hib]
    · simp [List.length_zipWith, sel_length, hib]
    · intro l hl
      simp only [Option.some.injEq] at hl
      subst hl
      simp [List.length_zipWith, sel_length, hib]
  · intro s hw
    obtain ⟨h1, h2, h3, h4⟩ := hw
    unfold MassChangeDataSeries.accumulate_mass MassChangeDataSeries.init
      MassRateDataSeries.dMdt MassRateDataSeries.dMdt_err
    refine ⟨?_, ?_, ?_⟩
    · simp [cumsum_length, List.length_zipWith, h1, h2]
    · simp [List.length_zipWith, h1, h3]
    · intro l hl
      simp only at hl
      rw [List.length_zipWith, h1, Nat.min_self]
      exact h4 l hl
  · intro s w0 w1 hw
    exact wfMR_set_max_time (wfMR_set_min_time hw w0) w1
  · intro s w0 w1 hw
    have h1 : wfW (s.set_min_time w0) := wfW_set_time hw _
    exact wfW_set_time h1 _
  · intro s w0 w1 hw
    have h1 : wfM (s.set_min_time w0) := wfM_set_time hw _
    exact wfM_set_time h1 _
  · intro m hm
    obtain ⟨h1, h2, h3⟩ := hm
    unfold MassRateDataSeries.derive_rates MassChangeDataSeries.errs
      MassChangeDataSeries.mass
    dsimp only
    refine ⟨?_, ?_, ?_, ?_, ?_⟩
    · simp
    · simp [List.length_zipWith, h1]
    · intro l hl
      cases ha : m.a with
      | none => rw [ha] at hl; simp at hl
      | some la =>
        rw [ha] at hl
        simp only [Option.map_some', Option.some.injEq] at hl
        subst hl
        simp [List.length_zipWith, h3 la ha]
    · simp
    · exact h2
  · intro sq s
    unfold MassRateDataSeries.chunk_rates weighted_combine
    dsimp only
    exact ⟨by simp, by simp, rfl⟩

/-- Claim C7, counterexample to the claim as stated: `derive_rates` applied
to the two-sample mass series `m7` yields a series whose value array has one
entry but whose error array has two — its parallel arrays do not share one
length. -/
theorem c7_array_length_invariant_cex :
    (MassRateDataSeries.derive_rates m7).dmdt.length = 1 ∧
    (MassRateDataSeries.derive_rates m7).errs.length = 2 ∧
    (1 : ℕ) ≠ 2 := by
  refine ⟨?_, ?_, by norm_num⟩
  · norm_num [MassRateDataSeries.derive_rates, MassChangeDataSeries.mass, m7]
  · norm_num [MassRateDataSeries.derive_rates, MassChangeDataSeries.errs, m7]

/-- Claim C7, witness: the amended theorem applied at concrete series of
every operation it covers. -/
theorem c7_array_length_invariant_witness :
    (MassRateDataSeries.merge sqId ra0 rb0 = .ok (some mr0) ∧ wfMR mr0) ∧
    (WorkingMassRateDataSeries.merge sqId wa0 wb0 = .ok (some wr0) ∧
      wfW wr0) ∧
    (MassChangeDataSeries.merge sqId ma0 mb0 = .ok (some mm0) ∧ wfM mm0) ∧
    (wfMR rc ∧ wfM (MassChangeDataSeries.accumulate_mass rc)) ∧
    (wfMR rt5 ∧ wfMR (rt5.truncate (3999 / 2) (4001 / 2))) ∧
    (wfM m7 ∧
      (MassRateDataSeries.derive_rates m7).errs.length = m7.t.length) := by
  have hmr : MassRateDataSeries.merge sqId ra0 rb0 = .ok (some mr0) := by
    norm_num [MassRateDataSeries.merge, mergedMR, matchTimes, matchGo, sel,
      sqId, ra0, rb0, mr0]
  have hw : WorkingMassRateDataSeries.merge sqId wa0 wb0 = .ok (some wr0) := by
    norm_num [WorkingMassRateDataSeries.merge, mergedW, matchTimes, matchGo,
      sel, sqId, wa0, wb0, wr0]
  have hm : MassChangeDataSeries.merge sqId ma0 mb0 = .ok (some mm0) := by
    norm_num [MassChangeDataSeries.merge, MassChangeDataSeries.init,
      matchTimes, matchGo, sel, sqId, ma0, mb0, mm0]
  have hrc : wfMR rc := by simp [wfMR, rc]
  have hrt5 : wfMR rt5 := by simp [wfMR, rt5]
  have hm7 : wfM m7 := by simp [wfM, m7]
  exact ⟨⟨hmr, c7_array_length_invariant.1 sqId ra0 rb0 mr0 hmr⟩,
    ⟨hw, c7_array_length_invariant.2.1 sqId wa0 wb0 wr0 hw⟩,
    ⟨hm, c7_array_length_invariant.2.2.1 sqId ma0 mb0 mm0 hm⟩,
    ⟨hrc, c7_array_length_invariant.2.2.2.1 rc hrc⟩,
    ⟨hrt5, c7_array_length_invariant.2.2.2.2.1 rt5 (3999 / 2) (4001 / 2) hrt5⟩,
    ⟨hm7, (c7_array_length_invariant.2.2.2.2.2.2.2.1 m7 hm7).2.2.2.2⟩⟩

/-- Claim C8 (confirmed).  Whenever a merge of any of the three series
variants returns a result, the result's basin scheme is the unified "sheets"
scheme, whatever the schemes of the two inputs. -/
theorem c8_merge_scheme_sheets :
    (∀ (sq : ℚ → ℚ) (a b r : MassRateDataSeries),
      MassRateDataSeries.merge sq a b = .ok (some r) →
      r.basin_group = BasinGroup.sheets) ∧
    (∀ (sq : ℚ → ℚ) (a b r : WorkingMassRateDataSeries),
      WorkingMassRateDataSeries.merge sq a b = .ok (some r) →
      r.basin_group = BasinGroup.sheets) ∧
    (∀ (sq : ℚ → ℚ) (a b r : MassChangeDataSeries),
      MassChangeDataSeries.merge sq a b = .ok (some r) →
      r.basin_group = BasinGroup.sheets) := by
  refine ⟨?_, ?_, ?_⟩
  · intro sq a b r h
    obtain ⟨la, lb, -, -, -, -, -, hr⟩ := MRmerge_ok_elim h
    subst hr; rfl
  · intro sq a b r h
    obtain ⟨u, -, -, -, -, hr⟩ := Wmerge_ok_elim h
    subst hr; rfl
  · intro sq a b r h
    obtain ⟨la, lb, -, -, -, -, -, -, hr⟩ := Mmerge_ok_elim h
    subst hr; rfl

/-- Claim C8, witness: concrete merges of each variant, from a scheme-A and
a scheme-B input, all carry the unified scheme. -/
theorem c8_merge_scheme_sheets_witness :
    MassRateDataSeries.merge sqId ra0 rb0 = .ok (some mr0) ∧
    WorkingMassRateDataSeries.merge sqId wa0 wb0 = .ok (some wr0) ∧
    MassChangeDataSeries.merge sqId ma0 mb0 = .ok (some mm0) ∧
    ra0.basin_group = BasinGroup.rignot ∧
    rb0.basin_group = BasinGroup.zwally ∧
    mr0.basin_group = BasinGroup.sheets ∧
    wr0.basin_group = BasinGroup.sheets ∧
    mm0.basin_group = BasinGroup.sheets := by
  have hmr : MassRateDataSeries.merge sqId ra0 rb0 = .ok (some mr0) := by
    norm_num [MassRateDataSeries.merge, mergedMR, matchTimes, matchGo, sel,
      sqId, ra0, rb0, mr0]
  have hw : WorkingMassRateDataSeries.merge sqId wa0 wb0 = .ok (some wr0) := by
    norm_num [WorkingMassRateDataSeries.merge, mergedW, matchTimes, matchGo,
      sel, sqId, wa0, wb0, wr0]
  have hm : MassChangeDataSeries.merge sqId ma0 mb0 = .ok (some mm0) := by
    norm_num [MassChangeDataSeries.merge, MassChangeDataSeries.init,
      matchTimes, matchGo, sel, sqId, ma0, mb0, mm0]
  exact ⟨hmr, hw, hm, rfl, rfl,
    c8_merge_scheme_sheets.1 sqId ra0 rb0 mr0 hmr,
    c8_merge_scheme_sheets.2.1 sqId wa0 wb0 wr0 hw,
    c8_merge_scheme_sheets.2.2 sqId ma0 mb0 mm0 hm⟩

/-- Claim C9 (corrected).  For the two rate variants, a merge result's
`computed` and `aggregated` flags are the logical OR of the inputs' flags
and `merged` is set by the scheme-merge itself; for the mass variant,
`computed` is the OR and `merged` is set, but `aggregated` is not
propagated — `MassChangeDataSeries.__init__` accepts no `aggregated`
parameter, so the result's `aggregated` flag is always `False` whatever the
inputs carry. -/
theorem c9_merge_flag_propagation :
    (∀ (sq : ℚ → ℚ) (a b r : MassRateDataSeries),
      MassRateDataSeries.merge sq a b = .ok (some r) →
      r.computed = (a.computed || b.computed) ∧ r.merged = true ∧
      r.aggregated = (a.aggregated || b.aggregated)) ∧
    (∀ (sq : ℚ → ℚ) (a b r : WorkingMassRateDataSeries),
      WorkingMassRateDataSeries.merge sq a b = .ok (some r) →
      r.computed = (a.computed || b.computed) ∧ r.merged = true ∧
      r.aggregated = (a.aggregated || b.aggregated)) ∧
    (∀ (sq : ℚ → ℚ) (a b r : MassChangeDataSeries),
      MassChangeDataSeries.merge sq a b = .ok (some r) →
      r.computed = (a.computed || b.computed) ∧ r.merged = true ∧
      r.aggregated = false) := by
  refine ⟨?_, ?_, ?_⟩
  · intro sq a b r h
    obtain ⟨la, lb, -, -, -, -, -, hr⟩ := MRmerge_ok_elim h
    subst hr; exact ⟨rfl, rfl, rfl⟩
  · intro sq a b r h
    obtain ⟨u, -, -, -, -, hr⟩ := Wmerge_ok_elim h
    subst hr; exact ⟨rfl, rfl, rfl⟩
  · intro sq a b r h
    obtain ⟨la, lb, -, -, -, -, -, -, hr⟩ := Mmerge_ok_elim h
    subst hr; exact ⟨rfl, rfl, rfl⟩

/-- Claim C9, counterexample to the claim as stated: merging the mass series
`maT` (which carries `aggregated = True`) with `mb0` yields a result whose
`aggregated` flag is `False`, not the OR of the inputs' flags. -/
theorem c9_merge_flag_propagation_cex :
    MassChangeDataSeries.merge sqId maT mb0 = .ok (some mm0) ∧
    maT.aggregated = true ∧ mb0.aggregated = false ∧
    mm0.aggregated = false ∧
    mm0.aggregated ≠ (maT.aggregated || mb0.aggregated) := by
  refine ⟨?_, rfl, rfl, rfl, by simp [mm0, maT, ma0, mb0]⟩
  norm_num [MassChangeDataSeries.merge, MassChangeDataSeries.init, matchTimes,
    matchGo, sel, sqId, maT, ma0, mb0, mm0]

/-- Claim C9, witness: the amended theorem applied at concrete merges of
each variant (the second rate input carries `aggregated = True`, and the OR
reaches the rate results). -/
theorem c9_merge_flag_propagation_witness :
    MassRateDataSeries.merge sqId ra0 rb0 = .ok (some mr0) ∧
    WorkingMassRateDataSeries.merge sqId wa0 wb0 = .ok (some wr0) ∧
    MassChangeDataSeries.merge sqId ma0 mb0 = .ok (some mm0) ∧
    mr0.aggregated = (ra0.aggregated || rb0.aggregated) ∧
    mr0.merged = true ∧
    wr0.aggregated = (wa0.aggregated || wb0.aggregated) ∧
    mm0.computed = (ma0.computed || mb0.computed) ∧
    mm0.aggregated = false := by
  have hmr : MassRateDataSeries.merge sqId ra0 rb0 = .ok (some mr0) := by
    norm_num [MassRateDataSeries.merge, mergedMR, matchTimes, matchGo, sel,
      sqId, ra0, rb0, mr0]
  have hw : WorkingMassRateDataSeries.merge sqId wa0 wb0 = .ok (some wr0) := by
    norm_num [WorkingMassRateDataSeries.merge, mergedW, matchTimes, matchGo,
      sel, sqId, wa0, wb0, wr0]
  have hm : MassChangeDataSeries.merge sqId ma0 mb0 = .ok (some mm0) := by
    norm_num [MassChangeDataSeries.merge, MassChangeDataSeries.init,
      matchTimes, matchGo, sel, sqId, ma0, mb0, mm0]
  exact ⟨hmr, hw, hm,
    (c9_merge_flag_propagation.1 sqId ra0 rb0 mr0 hmr).2.2,
    (c9_merge_flag_propagation.1 sqId ra0 rb0 mr0 hmr).2.1,
    (c9_merge_flag_propagation.2.1 sqId wa0 wb0 wr0 hw).2.2,
    (c9_merge_flag_propagation.2.2 sqId ma0 mb0 mm0 hm).1,
    (c9_merge_flag_propagation.2.2 sqId ma0 mb0 mm0 hm).2.2⟩

/-- Claim C10 (confirmed).  Whenever a merge of any variant returns a
result, the result's identity fields — contributor name, technique group,
data-group label, basin identifier and scalar basin area — all come from the
first argument, so the second argument's identity fields cannot influence
them. -/
theorem c10_merge_identity_from_first :
    (∀ (sq : ℚ → ℚ) (a b r : MassRateDataSeries),
      MassRateDataSeries.merge sq a b = .ok (some r) →
      r.user = a.user ∧ r.user_group = a.user_group ∧
      r.data_group = a.data_group ∧ r.basin_id = a.basin_id ∧
      r.basin_area = a.basin_area) ∧
    (∀ (sq : ℚ → ℚ) (a b r : WorkingMassRateDataSeries),
      WorkingMassRateDataSeries.merge sq a b = .ok (some r) →
      r.user = a.user ∧ r.user_group = a.user_group ∧
      r.data_group = a.data_group ∧ r.basin_id = a.basin_id ∧
      r.basin_area = a.basin_area) ∧
    (∀ (sq : ℚ → ℚ) (a b r : MassChangeDataSeries),
      MassChangeDataSeries.merge sq a b = .ok (some r) →
      r.user = a.user ∧ r.user_group = a.user_group ∧
      r.data_group = a.data_group ∧ r.basin_id = a.basin_id ∧
      r.basin_area = a.basin_area) := by
  refine ⟨?_, ?_, ?_⟩
  · intro sq a b r h
    obtain ⟨la, lb, -, -, -, -, -, hr⟩ := MRmerge_ok_elim h
    subst hr; exact ⟨rfl, rfl, rfl, rfl, rfl⟩
  · intro sq a b r h
    obtain ⟨u, -, -, -, -, hr⟩ := Wmerge_ok_elim h
    subst hr; exact ⟨rfl, rfl, rfl, rfl, rfl⟩
  · intro sq a b r h
    obtain ⟨la, lb, -, -, -, -, -, -, hr⟩ := Mmerge_ok_elim h
    subst hr; exact ⟨rfl, rfl, rfl, rfl, rfl⟩

/-- Claim C10, witness: concrete merges whose second arguments carry
different identity fields from the first; every identity field of each
result equals the first argument's. -/
theorem c10_merge_identity_from_first_witness :
    MassRateDataSeries.merge sqId ra0 rb0 = .ok (some mr0) ∧
    WorkingMassRateDataSeries.merge sqId wa0 wb0 = .ok (some wr0) ∧
    MassChangeDataSeries.merge sqId ma0 mb0 = .ok (some mm0) ∧
    ra0.user ≠ rb0.user ∧ ra0.basin_id ≠ rb0.basin_id ∧
    mr0.user = ra0.user ∧ mr0.basin_id = ra0.basin_id ∧
    mr0.basin_area = ra0.basin_area ∧
    wr0.user_group = wa0.user_group ∧
    mm0.data_group = ma0.data_group := by
  have hmr : MassRateDataSeries.merge sqId ra0 rb0 = .ok (some mr0) := by
    norm_num [MassRateDataSeries.merge, mergedMR, matchTimes, matchGo, sel,
      sqId, ra0, rb0, mr0]
  have hw : WorkingMassRateDataSeries.merge sqId wa0 wb0 = .ok (some wr0) := by
    norm_num [WorkingMassRateDataSeries.merge, mergedW, matchTimes, matchGo,
      sel, sqId, wa0, wb0, wr0]
  have hm : MassChangeDataSeries.merge sqId ma0 mb0 = .ok (some mm0) := by
    norm_num [MassChangeDataSeries.merge, MassChangeDataSeries.init,
      matchTimes, matchGo, sel, sqId, ma0, mb0, mm0]
  exact ⟨hmr, hw, hm, by simp [ra0, rb0], by simp [ra0, rb0],
    (c10_merge_identity_from_first.1 sqId ra0 rb0 mr0 hmr).1,
    (c10_merge_identity_from_first.1 sqId ra0 rb0 mr0 hmr).2.2.2.1,
    (c10_merge_identity_from_first.1 sqId ra0 rb0 mr0 hmr).2.2.2.2,
    (c10_merge_identity_from_first.2.1 sqId wa0 wb0 wr0 hw).2.1,
    (c10_merge_identity_from_first.2.2 sqId ma0 mb0 mm0 hm).2.2.1⟩
